import Mathlib

/-!
Shallow embedding of the call/audio coordination core of the hands-free
sample application (`src/handsfree_main.c`, configuration in
`src/handsfree_bt_cfg.c`).  Stateful C handlers over the global
`handsfree_ctxt_data` / `handsfree_esco_params` / `handsfree_app_states`
are modelled as pure functions from the relevant state to the new state
together with the list of host events and stack requests the handler
issues, in issue order.  Machine integers are modelled as `Nat`: every
value involved (indicator ids and values, volume levels, SCO indices)
is small and non-negative in the source, so no wrap-around arises.

The build configuration modelled is the full-featured one:
`WICED_BT_HFP_HF_WBS_INCLUDED == TRUE` and `WICED_ENABLE_BT_HSP_PROFILE`
defined, which is the configuration the specification describes.
-/

namespace Handsfree

/-! ### Numeric constants

Values of SDK enumerations and macros referenced by `handsfree_main.c`.
The enumeration values themselves live in SDK headers outside this
repository (`wiced_bt_hfp_hf.h`, `hci_control_api.h`, `handsfree.h`);
the properties proved below depend only on the constants being the
distinct tags the code compares against, not on their numeric values. -/

/-- Call-setup state `WICED_BT_HFP_HF_CALLSETUP_STATE_IDLE`. -/
def WICED_BT_HFP_HF_CALLSETUP_STATE_IDLE : Nat := 0

/-- Call-setup state `WICED_BT_HFP_HF_CALLSETUP_STATE_INCOMING`. -/
def WICED_BT_HFP_HF_CALLSETUP_STATE_INCOMING : Nat := 1

/-- Call-setup state `WICED_BT_HFP_HF_CALLSETUP_STATE_DIALING`. -/
def WICED_BT_HFP_HF_CALLSETUP_STATE_DIALING : Nat := 2

/-- Call-setup state `WICED_BT_HFP_HF_CALLSETUP_STATE_ALERTING`. -/
def WICED_BT_HFP_HF_CALLSETUP_STATE_ALERTING : Nat := 3

/-- Connection state `WICED_BT_HFP_HF_STATE_DISCONNECTED`. -/
def WICED_BT_HFP_HF_STATE_DISCONNECTED : Nat := 0

/-- Profile tag `WICED_BT_HFP_PROFILE`. -/
def WICED_BT_HFP_PROFILE : Nat := 1

/-- Profile tag `WICED_BT_HSP_PROFILE`. -/
def WICED_BT_HSP_PROFILE : Nat := 2

/-- Sentinel `BT_AUDIO_INVALID_SCO_INDEX` marking "no voice channel"
(defined in the repository header `handsfree.h`, which is not under
`src/`; only its role as a sentinel distinct from live indices matters). -/
def BT_AUDIO_INVALID_SCO_INDEX : Nat := 0xFFFF

/-- Device-address length `BD_ADDR_LEN`. -/
def BD_ADDR_LEN : Nat := 6

/-- Indicator id `WICED_BT_HFP_HF_SERVICE_IND`. -/
def WICED_BT_HFP_HF_SERVICE_IND : Nat := 1

/-- Indicator id `WICED_BT_HFP_HF_CALL_IND` (active call). -/
def WICED_BT_HFP_HF_CALL_IND : Nat := 2

/-- Indicator id `WICED_BT_HFP_HF_CALL_SETUP_IND`. -/
def WICED_BT_HFP_HF_CALL_SETUP_IND : Nat := 3

/-- Indicator id `WICED_BT_HFP_HF_CALL_HELD_IND`. -/
def WICED_BT_HFP_HF_CALL_HELD_IND : Nat := 4

/-- AG feature bit `WICED_BT_HFP_AG_FEATURE_INBAND_RING_TONE_CAPABILITY`. -/
def WICED_BT_HFP_AG_FEATURE_INBAND_RING_TONE_CAPABILITY : Nat := 0x8

/-- AG feature bit `WICED_BT_HFP_AG_FEATURE_CODEC_NEGOTIATION`. -/
def WICED_BT_HFP_AG_FEATURE_CODEC_NEGOTIATION : Nat := 0x200

/-- HF feature bit `WICED_BT_HFP_HF_FEATURE_CODEC_NEGOTIATION`. -/
def WICED_BT_HFP_HF_FEATURE_CODEC_NEGOTIATION : Nat := 0x80

/-- Codec id `WICED_BT_HFP_HF_MSBC_CODEC` (wideband mSBC codec). -/
def WICED_BT_HFP_HF_MSBC_CODEC : Nat := 2

/-- AT event id offset `HCI_CONTROL_HF_AT_EVENT_CIEV`. -/
def HCI_CONTROL_HF_AT_EVENT_CIEV : Nat := 23

/-- AT event id offset `HCI_CONTROL_HF_AT_EVENT_CLIP`. -/
def HCI_CONTROL_HF_AT_EVENT_CLIP : Nat := 7

/-- AT event id offset `HCI_CONTROL_HF_AT_EVENT_BINP`. -/
def HCI_CONTROL_HF_AT_EVENT_BINP : Nat := 9

/-- AT event id offset `HCI_CONTROL_HF_AT_EVENT_CNUM`. -/
def HCI_CONTROL_HF_AT_EVENT_CNUM : Nat := 13

/-- AT event id offset `HCI_CONTROL_HF_AT_EVENT_BCS`. -/
def HCI_CONTROL_HF_AT_EVENT_BCS : Nat := 24

/-- Profile-scale maximum volume `HFP_VOLUME_HIGH` (handsfree_main.c line 105). -/
def HFP_VOLUME_HIGH : Nat := 15

/-! ### Data model -/

/-- Per-link context, mirroring the fields of the global
`bluetooth_hfp_context_t handsfree_ctxt_data` that `handsfree_main.c`
reads or writes.  Indicator values and enumerations are `Nat` exactly as
the source compares them; device addresses are byte lists of length 6. -/
structure bluetooth_hfp_context_t where
  call_active : Nat
  call_held : Nat
  call_setup : Nat
  connection_status : Nat
  spkr_volume : Nat
  mic_volume : Nat
  sco_index : Nat
  init_sco_conn : Bool
  is_sco_connected : Bool
  inband_ring_status : Bool
  peer_bd_addr : List Nat
deriving DecidableEq

/-- Outward host events, one constructor per `hci_control_send_hf_event`
shape used by the modelled handlers.  `atEvt code num text` is the
default AT-response encoding: a 2-byte numeric field and a text field
(modelled as its byte list). -/
inductive HostEvt where
  | openEvt (bd_addr : List Nat) (status : Nat)
  | closeEvt
  | audioOpen
  | audioClose
  | connectedEvt (peer_features : Nat)
  | profileTypeEvt (profile_selected : Nat)
  | atEvt (code : Nat) (num : Nat) (text : List Nat)
deriving DecidableEq

/-- Requests the handlers issue to the SCO layer of the stack. -/
inductive StackReq where
  | scoCreateAcceptor
  | scoCreateInitiator
  | scoRemove
  | scoAccept (sco_index : Nat)
deriving DecidableEq

/-- Signaling connection states delivered in
`WICED_BT_HFP_HF_CONNECTION_STATE_EVT` notifications. -/
inductive ConnStateEvt where
  | connected
  | slcConnected
  | disconnected
deriving DecidableEq

/-- All-zero context, the reset state of the global C object before
`handsfree_init_context_data` runs (C globals are zero-initialised). -/
def zero_ctxt : bluetooth_hfp_context_t :=
  { call_active := 0
    call_held := 0
    call_setup := 0
    connection_status := 0
    spkr_volume := 0
    mic_volume := 0
    sco_index := 0
    init_sco_conn := false
    is_sco_connected := false
    inband_ring_status := false
    peer_bd_addr := List.replicate 6 0 }

/-- Embeds `handsfree_init_context_data` (handsfree_main.c lines 617-627):
sets the listed fields of the context to their defaults, leaving every
other field as it was. -/
def handsfree_init_context_data (ctxt : bluetooth_hfp_context_t) :
    bluetooth_hfp_context_t :=
  { ctxt with
      call_active := 0
      call_held := 0
      call_setup := WICED_BT_HFP_HF_CALLSETUP_STATE_IDLE
      connection_status := WICED_BT_HFP_HF_STATE_DISCONNECTED
      spkr_volume := 8
      mic_volume := 8
      sco_index := BT_AUDIO_INVALID_SCO_INDEX
      init_sco_conn := false }

/-- Embeds `handsfree_connection_event_handler` (handsfree_main.c lines
294-340).  Inputs beyond the context are the fields of the notification
(`conn_state`, `remote_address`, `connected_profile`) and the SCO index
the stack assigns through the out-parameter of
`wiced_bt_sco_create_as_acceptor`.  Returns the new context, the host
events emitted and the stack requests issued, in source order. -/
def handsfree_connection_event_handler
    (conn_state : ConnStateEvt) (remote_address : List Nat)
    (connected_profile : Nat) (assigned_sco_index : Nat)
    (ctxt : bluetooth_hfp_context_t) :
    bluetooth_hfp_context_t × List HostEvt × List StackReq :=
  match conn_state with
  | .connected =>
      let ctxt1 :=
        if connected_profile = WICED_BT_HFP_PROFILE then ctxt
        else { ctxt with peer_bd_addr := remote_address }
      ({ ctxt1 with sco_index := assigned_sco_index },
       [HostEvt.openEvt remote_address 0,
        HostEvt.profileTypeEvt connected_profile],
       [StackReq.scoCreateAcceptor])
  | .slcConnected =>
      ({ ctxt with peer_bd_addr := remote_address }, [], [])
  | .disconnected =>
      let ctxt1 := { ctxt with peer_bd_addr := List.replicate 6 0 }
      if ctxt1.sco_index ≠ BT_AUDIO_INVALID_SCO_INDEX then
        ({ ctxt1 with sco_index := BT_AUDIO_INVALID_SCO_INDEX },
         [HostEvt.closeEvt], [StackReq.scoRemove])
      else
        (ctxt1, [HostEvt.closeEvt], [])

/-! ### Concrete states used by closed theorems -/

/-- Context right after `handsfree_init_context_data` at startup. -/
def ctxt0 : bluetooth_hfp_context_t := handsfree_init_context_data zero_ctxt

/-- Sample remote device address. -/
def addrA : List Nat := [17, 34, 51, 68, 85, 102]

/-- Context of a link with an active call and a live, connected voice
channel (index 3). -/
def ctxt_call_sco : bluetooth_hfp_context_t :=
  { ctxt0 with call_active := 1, sco_index := 3, is_sco_connected := true,
               peer_bd_addr := addrA }

/-- Context of a link with an active call whose voice channel has not
connected. -/
def ctxt_call_nosco : bluetooth_hfp_context_t :=
  { ctxt0 with call_active := 1, sco_index := 3, peer_bd_addr := addrA }

/-- Context of a link with no active call and a connected voice channel. -/
def ctxt_idle_sco : bluetooth_hfp_context_t :=
  { ctxt0 with sco_index := 3, is_sco_connected := true,
               peer_bd_addr := addrA }

/-! ### Call indicators -/

/-- Fields of the `wiced_bt_hfp_hf_call_data_t` notification payload. -/
structure wiced_bt_hfp_hf_call_data_t where
  setup_state : Nat
  held_call_present : Nat
  active_call_present : Nat
deriving DecidableEq

/-- Embeds `handsfree_call_setup_event_handler` (handsfree_main.c lines
343-388).  The `switch` on `setup_state` only classifies the transition
for logging (cancelled attempt vs. terminated call); every branch falls
through to the three unconditional assignments at the end, which are the
whole state effect. -/
def handsfree_call_setup_event_handler
    (call_data : wiced_bt_hfp_hf_call_data_t)
    (ctxt : bluetooth_hfp_context_t) : bluetooth_hfp_context_t :=
  { ctxt with
      call_active := call_data.active_call_present
      call_setup := call_data.setup_state
      call_held := call_data.held_call_present }

/-- Embeds `handsfree_send_ciev_cmd` (handsfree_main.c lines 390-398):
builds the ASCII text `<ind_id>,<ind_val>` (digit encoding via
`0x30 + value`, comma is byte `0x2C`) and sends it as the CIEV AT event. -/
def handsfree_send_ciev_cmd (ind_id ind_val : Nat) : HostEvt :=
  HostEvt.atEvt HCI_CONTROL_HF_AT_EVENT_CIEV 0 [48 + ind_id, 44, 48 + ind_val]

/-- Embeds the `WICED_BT_HFP_HF_CALL_SETUP_EVT` case of
`handsfree_event_callback` (handsfree_main.c lines 472-484): each of the
three indicators is compared against the stored context value and a CIEV
event is sent for each that differs, in the fixed source order active
call, held call, call setup; then `handsfree_call_setup_event_handler`
stores the notified values. -/
def handsfree_call_setup_evt (call_data : wiced_bt_hfp_hf_call_data_t)
    (ctxt : bluetooth_hfp_context_t) :
    bluetooth_hfp_context_t × List HostEvt :=
  ( handsfree_call_setup_event_handler call_data ctxt,
    (if ctxt.call_active ≠ call_data.active_call_present then
       [handsfree_send_ciev_cmd WICED_BT_HFP_HF_CALL_IND
          call_data.active_call_present]
     else []) ++
    (if ctxt.call_held ≠ call_data.held_call_present then
       [handsfree_send_ciev_cmd WICED_BT_HFP_HF_CALL_HELD_IND
          call_data.held_call_present]
     else []) ++
    (if ctxt.call_setup ≠ call_data.setup_state then
       [handsfree_send_ciev_cmd WICED_BT_HFP_HF_CALL_SETUP_IND
          call_data.setup_state]
     else []) )

/-! ### Codec negotiation and the race-guard timer -/

/-- SCO parameter state: the one field of the global
`handsfree_esco_params` the modelled handlers write. -/
structure wiced_bt_sco_params_t where
  use_wbs : Bool
deriving DecidableEq

/-- Embeds the `WICED_BT_HFP_HF_AG_FEATURE_SUPPORT_EVT` case of
`handsfree_event_callback` (handsfree_main.c lines 440-466):
records the in-band-ring capability, and (in the
`WICED_BT_HFP_HF_WBS_INCLUDED` build) sets `use_wbs` to true exactly
when both the AG feature flags and the local SCB feature mask carry the
codec-negotiation bit; sends the Service-Level-Connected host event with
the AG feature bitmap. -/
def handsfree_ag_feature_support_evt (ag_feature_flags feature_mask : Nat)
    (ctxt : bluetooth_hfp_context_t) (esco : wiced_bt_sco_params_t) :
    bluetooth_hfp_context_t × wiced_bt_sco_params_t × List HostEvt :=
  let ctxt1 :=
    { ctxt with inband_ring_status :=
        ag_feature_flags &&& WICED_BT_HFP_AG_FEATURE_INBAND_RING_TONE_CAPABILITY ≠ 0 }
  let esco1 :=
    { esco with use_wbs :=
        ag_feature_flags &&& WICED_BT_HFP_AG_FEATURE_CODEC_NEGOTIATION ≠ 0 ∧
        feature_mask &&& WICED_BT_HFP_HF_FEATURE_CODEC_NEGOTIATION ≠ 0 }
  (ctxt1, esco1, [HostEvt.connectedEvt ag_feature_flags])

/-- Embeds the `WICED_BT_HFP_HFP_CODEC_SET_EVT` case of
`handsfree_event_callback` (handsfree_main.c lines 551-589): sets
`use_wbs` from the selected codec (true exactly for the mSBC codec; the
platform-conditional block repeats the same assignment), starts the
race-guard timer when `init_sco_conn` is set and clears that flag, and
sends the BCS AT event carrying the selected codec id.  The returned
`Bool` is the running state of `handsfree_app_states.hfp_timer`. -/
def handsfree_codec_set_evt (selected_codec : Nat)
    (ctxt : bluetooth_hfp_context_t) (esco : wiced_bt_sco_params_t)
    (timer_running : Bool) :
    bluetooth_hfp_context_t × wiced_bt_sco_params_t × Bool × List HostEvt :=
  let esco1 := { esco with use_wbs := selected_codec = WICED_BT_HFP_HF_MSBC_CODEC }
  let ctxt1 := if ctxt.init_sco_conn then { ctxt with init_sco_conn := false }
               else ctxt
  let timer1 := if ctxt.init_sco_conn then true else timer_running
  (ctxt1, esco1, timer1,
   [HostEvt.atEvt HCI_CONTROL_HF_AT_EVENT_BCS selected_codec []])

/-- Embeds `hfp_timer_expiry_handler` (handsfree_main.c lines 853-861):
when the call is active and the SCO channel has not connected, removes
the current channel and creates it again as initiator (the stack assigns
`assigned_sco_index` through the out-parameter of
`wiced_bt_sco_create_as_initiator`); otherwise does nothing. -/
def hfp_timer_expiry_handler (assigned_sco_index : Nat)
    (ctxt : bluetooth_hfp_context_t) :
    bluetooth_hfp_context_t × List StackReq :=
  if ctxt.call_active ≠ 0 ∧ ctxt.is_sco_connected = false then
    ({ ctxt with sco_index := assigned_sco_index },
     [StackReq.scoRemove, StackReq.scoCreateInitiator])
  else
    (ctxt, [])

/-! ### SCO management callback -/

/-- SCO management events delivered to `hf_sco_management_callback`. -/
inductive ScoMgmtEvt where
  | scoConnected
  | scoDisconnected
  | scoConnectionRequest (sco_index : Nat)
  | scoConnectionChange
deriving DecidableEq

/-- Embeds `hf_sco_management_callback` (handsfree_main.c lines 765-851),
restricted to its state, event and request effects (the
platform-conditional audio-manager stream calls configure the external
codec collaborator and touch no modelled state).  On disconnect the
handler sends Audio-path-closed, immediately re-creates the channel as
acceptor (stack assigns `assigned_sco_index`) and clears
`is_sco_connected`; on connect it sends Audio-path-opened and sets
`is_sco_connected`; on a peer connection request it stops the race-guard
timer when running and accepts with the parameter set matching the
selected profile.  The returned `Bool` is the timer running state. -/
def hf_sco_management_callback (event : ScoMgmtEvt)
    (assigned_sco_index : Nat) (profile_selected : Nat)
    (timer_running : Bool) (ctxt : bluetooth_hfp_context_t) :
    bluetooth_hfp_context_t × Bool × List HostEvt × List StackReq :=
  match event with
  | .scoConnected =>
      ({ ctxt with is_sco_connected := true }, timer_running,
       [HostEvt.audioOpen], [])
  | .scoDisconnected =>
      ({ ctxt with sco_index := assigned_sco_index, is_sco_connected := false },
       timer_running, [HostEvt.audioClose], [StackReq.scoCreateAcceptor])
  | .scoConnectionRequest idx =>
      (ctxt, false, [],
       if profile_selected = WICED_BT_HFP_PROFILE then [StackReq.scoAccept idx]
       else [StackReq.scoAccept idx])
  | .scoConnectionChange =>
      (ctxt, timer_running, [], [])

/-! ### Volume mapping -/

/-- Embeds `handsfree_utils_hfp_volume_to_am_volume` (handsfree_main.c
lines 745-759).  The source fixes the two scale bounds to the macros
`HFP_VOLUME_HIGH` (15, line 105) and `AM_VOL_LEVEL_HIGH` (SDK header);
they are parameters here, in the roles the specification names `hf_max`
and `device_max`.  All arithmetic is on non-negative values, so C
truncated division coincides with `Nat` division. -/
def handsfree_utils_hfp_volume_to_am_volume
    (vol hfp_volume_high am_vol_level_high : Nat) : Nat :=
  let am_level := vol * am_vol_level_high / hfp_volume_high
  let remainder := vol * am_vol_level_high % hfp_volume_high
  if remainder ≥ am_vol_level_high then am_level + 1 else am_level

/-! ### AT-response passthrough text copies -/

/-- Embeds the text copy of the `WICED_BT_HFP_HF_CLIP_IND_EVT` branch
(handsfree_main.c line 526): `strncpy` bounded by the capacity of the
outward `val.str` buffer keeps at most `cap` bytes of the source text. -/
def clip_text_copy (cap : Nat) (caller_num : List Nat) : List Nat :=
  caller_num.take cap

/-- Embeds the text copy of the `WICED_BT_HFP_HF_BINP_EVT` branch
(handsfree_main.c line 533), identical bounded `strncpy`. -/
def binp_text_copy (cap : Nat) (caller_num : List Nat) : List Nat :=
  caller_num.take cap

/-- Embeds the text copy of the `WICED_BT_HFP_HF_CNUM_EVT` branch
(handsfree_main.c line 597): `memcpy` of `strlen(cnum_data)` bytes into
`val.str`, with no bound from the buffer capacity — the whole source
text is written whatever its length. -/
def cnum_text_copy (cnum_data : List Nat) : List Nat :=
  cnum_data

/-! ### Theorems -/

/-- C1 (amended): when the signaling connection transitions to
disconnected, the handler removes the voice channel exactly when one is
present, resets the channel index to the invalid sentinel, clears the
stored remote address to all-zero bytes and emits exactly one
Link-closed event; the remaining context fields (call indicators, audio
connected flag, `init_sco_conn`, in-band ring) are left unchanged, not
reset to defaults. -/
theorem disconnect_removes_channel_clears_address_one_close
    (remote_address : List Nat) (connected_profile assigned_sco_index : Nat)
    (ctxt : bluetooth_hfp_context_t) :
    (handsfree_connection_event_handler .disconnected remote_address
        connected_profile assigned_sco_index ctxt).1.peer_bd_addr =
      List.replicate 6 0 ∧
    (handsfree_connection_event_handler .disconnected remote_address
        connected_profile assigned_sco_index ctxt).1.sco_index =
      BT_AUDIO_INVALID_SCO_INDEX ∧
    (handsfree_connection_event_handler .disconnected remote_address
        connected_profile assigned_sco_index ctxt).2.1 = [HostEvt.closeEvt] ∧
    (handsfree_connection_event_handler .disconnected remote_address
        connected_profile assigned_sco_index ctxt).2.2 =
      (if ctxt.sco_index ≠ BT_AUDIO_INVALID_SCO_INDEX then [StackReq.scoRemove]
       else []) ∧
    (handsfree_connection_event_handler .disconnected remote_address
        connected_profile assigned_sco_index ctxt).1.call_active =
      ctxt.call_active ∧
    (handsfree_connection_event_handler .disconnected remote_address
        connected_profile assigned_sco_index ctxt).1.call_held = ctxt.call_held ∧
    (handsfree_connection_event_handler .disconnected remote_address
        connected_profile assigned_sco_index ctxt).1.call_setup =
      ctxt.call_setup ∧
    (handsfree_connection_event_handler .disconnected remote_address
        connected_profile assigned_sco_index ctxt).1.is_sco_connected =
      ctxt.is_sco_connected ∧
    (handsfree_connection_event_handler .disconnected remote_address
        connected_profile assigned_sco_index ctxt).1.init_sco_conn =
      ctxt.init_sco_conn ∧
    (handsfree_connection_event_handler .disconnected remote_address
        connected_profile assigned_sco_index ctxt).1.inband_ring_status =
      ctxt.inband_ring_status := by
  by_cases h : ctxt.sco_index = BT_AUDIO_INVALID_SCO_INDEX <;>
    simp [handsfree_connection_event_handler, h]

/-- C1 counterexample: disconnecting a link that had an active call and a
connected audio path leaves `call_active = 1` (default is 0), so the
resulting context is not equal to its default-reset image as the claim
requires. -/
theorem disconnect_does_not_reset_context_cex :
    ((handsfree_connection_event_handler .disconnected addrA WICED_BT_HFP_PROFILE
        0 ctxt_call_sco).1.call_active = 1 ∧
      (handsfree_init_context_data ctxt_call_sco).call_active = 0) ∧
    (handsfree_connection_event_handler .disconnected addrA WICED_BT_HFP_PROFILE
        0 ctxt_call_sco).1 ≠
      handsfree_init_context_data
        ((handsfree_connection_event_handler .disconnected addrA
            WICED_BT_HFP_PROFILE 0 ctxt_call_sco).1) := by
  decide

/-- C2 (amended): every signaling-connected notification causes exactly
one create-voice-channel-as-acceptor request; the handler issues one per
notification unconditionally, so a second consecutive connected
notification with no intervening disconnect issues one more rather than
none. -/
theorem connected_issues_one_acceptor_request
    (remote_address : List Nat) (connected_profile assigned_sco_index : Nat)
    (ctxt : bluetooth_hfp_context_t) :
    ((handsfree_connection_event_handler .connected remote_address
        connected_profile assigned_sco_index ctxt).2.2).count
      StackReq.scoCreateAcceptor = 1 := by
  simp [handsfree_connection_event_handler]

/-- C2 counterexample: a second consecutive signaling-connected
notification for the same link, with no intervening disconnect, again
issues a create-as-acceptor request, which the claim says must not
happen. -/
theorem second_connected_requests_acceptor_cex :
    StackReq.scoCreateAcceptor ∈
      (handsfree_connection_event_handler .connected addrA WICED_BT_HFP_PROFILE 6
        (handsfree_connection_event_handler .connected addrA WICED_BT_HFP_PROFILE
          5 ctxt0).1).2.2 := by
  decide

/-- C3 (amended): with `call_active` true and the voice channel never
connected, a timer expiry performs exactly one remove-channel followed by
create-as-initiator sequence; but a second expiry of the handler (a
stale re-fire with the channel still not connected) performs the same
remove-and-create sequence again, not nothing — the handler guards only
on the current `call_active`/`is_sco_connected` values and has no
single-shot phase flag. -/
theorem timer_refire_repeats_initiator_sequence
    (idx1 idx2 : Nat) (ctxt : bluetooth_hfp_context_t)
    (hcall : ctxt.call_active ≠ 0) (hsco : ctxt.is_sco_connected = false) :
    (hfp_timer_expiry_handler idx1 ctxt).2 =
      [StackReq.scoRemove, StackReq.scoCreateInitiator] ∧
    (hfp_timer_expiry_handler idx2 (hfp_timer_expiry_handler idx1 ctxt).1).2 =
      [StackReq.scoRemove, StackReq.scoCreateInitiator] := by
  simp [hfp_timer_expiry_handler, hcall, hsco]

/-- C3 witness: the amended claim at a concrete context with an active
call and an unconnected voice channel. -/
theorem timer_refire_repeats_initiator_sequence_witness :
    (hfp_timer_expiry_handler 6 ctxt_call_nosco).2 =
      [StackReq.scoRemove, StackReq.scoCreateInitiator] ∧
    (hfp_timer_expiry_handler 7 (hfp_timer_expiry_handler 6 ctxt_call_nosco).1).2 =
      [StackReq.scoRemove, StackReq.scoCreateInitiator] :=
  timer_refire_repeats_initiator_sequence 6 7 ctxt_call_nosco (by decide)
    (by decide)

/-- C3 counterexample: a stale re-fire of the timer handler after the
remove-and-create sequence, with the channel still not connected, issues
further stack requests, which the claim says must not happen. -/
theorem timer_stale_refire_not_noop_cex :
    (hfp_timer_expiry_handler 7 (hfp_timer_expiry_handler 6 ctxt_call_nosco).1).2 ≠
      [] := by
  decide

/-- C7: when the race-guard timer fires with `call_active` true and the
voice channel not connected, the handler removes the current voice
channel and then requests it as initiator; when the channel is connected
or `call_active` is false it performs no stack request and changes no
state. -/
theorem timer_expiry_characterization
    (assigned_sco_index : Nat) (ctxt : bluetooth_hfp_context_t) :
    ((ctxt.call_active ≠ 0 ∧ ctxt.is_sco_connected = false) →
       hfp_timer_expiry_handler assigned_sco_index ctxt =
         ({ ctxt with sco_index := assigned_sco_index },
          [StackReq.scoRemove, StackReq.scoCreateInitiator])) ∧
    ((ctxt.is_sco_connected = true ∨ ctxt.call_active = 0) →
       hfp_timer_expiry_handler assigned_sco_index ctxt = (ctxt, [])) := by
  constructor
  · intro h
    simp [hfp_timer_expiry_handler, h.1, h.2]
  · intro h
    rcases h with h | h <;> simp [hfp_timer_expiry_handler, h]

/-- C7 witness: both halves of the characterization at concrete contexts
(active call without audio; idle call with audio). -/
theorem timer_expiry_characterization_witness :
    hfp_timer_expiry_handler 6 ctxt_call_nosco =
      ({ ctxt_call_nosco with sco_index := 6 },
       [StackReq.scoRemove, StackReq.scoCreateInitiator]) ∧
    hfp_timer_expiry_handler 6 ctxt_idle_sco = (ctxt_idle_sco, []) :=
  ⟨(timer_expiry_characterization 6 ctxt_call_nosco).1 (by decide),
   (timer_expiry_characterization 6 ctxt_idle_sco).2 (by decide)⟩

/-- Helper: an optionally-kept singleton is a sublist of that singleton. -/
theorem opt_singleton_sublist {α : Type} (c : Prop) [Decidable c] (x : α) :
    List.Sublist (if c then [x] else []) [x] := by
  by_cases h : c <;> simp [h]

/-- C4: a call-indicator notification emits a CIEV event for an indicator
exactly when its value differs from the stored one; emitted events follow
the fixed order active-call, held-call, call-setup (the emitted list is a
sublist of the ordered triple); and a second notification with identical
values emits nothing. -/
theorem call_setup_indicator_emission
    (call_data : wiced_bt_hfp_hf_call_data_t)
    (ctxt : bluetooth_hfp_context_t) :
    (handsfree_send_ciev_cmd WICED_BT_HFP_HF_CALL_IND
        call_data.active_call_present ∈
          (handsfree_call_setup_evt call_data ctxt).2 ↔
      ctxt.call_active ≠ call_data.active_call_present) ∧
    (handsfree_send_ciev_cmd WICED_BT_HFP_HF_CALL_HELD_IND
        call_data.held_call_present ∈
          (handsfree_call_setup_evt call_data ctxt).2 ↔
      ctxt.call_held ≠ call_data.held_call_present) ∧
    (handsfree_send_ciev_cmd WICED_BT_HFP_HF_CALL_SETUP_IND
        call_data.setup_state ∈
          (handsfree_call_setup_evt call_data ctxt).2 ↔
      ctxt.call_setup ≠ call_data.setup_state) ∧
    List.Sublist (handsfree_call_setup_evt call_data ctxt).2
      [handsfree_send_ciev_cmd WICED_BT_HFP_HF_CALL_IND
         call_data.active_call_present,
       handsfree_send_ciev_cmd WICED_BT_HFP_HF_CALL_HELD_IND
         call_data.held_call_present,
       handsfree_send_ciev_cmd WICED_BT_HFP_HF_CALL_SETUP_IND
         call_data.setup_state] ∧
    (handsfree_call_setup_evt call_data
        (handsfree_call_setup_evt call_data ctxt).1).2 = [] := by
  refine ⟨?_, ?_, ?_, ?_, ?_⟩
  · by_cases h1 : ctxt.call_active = call_data.active_call_present <;>
      by_cases h2 : ctxt.call_held = call_data.held_call_present <;>
      by_cases h3 : ctxt.call_setup = call_data.setup_state <;>
      simp [handsfree_call_setup_evt, handsfree_send_ciev_cmd,
        WICED_BT_HFP_HF_CALL_IND, WICED_BT_HFP_HF_CALL_HELD_IND,
        WICED_BT_HFP_HF_CALL_SETUP_IND, h1, h2, h3]
  · by_cases h1 : ctxt.call_active = call_data.active_call_present <;>
      by_cases h2 : ctxt.call_held = call_data.held_call_present <;>
      by_cases h3 : ctxt.call_setup = call_data.setup_state <;>
      simp [handsfree_call_setup_evt, handsfree_send_ciev_cmd,
        WICED_BT_HFP_HF_CALL_IND, WICED_BT_HFP_HF_CALL_HELD_IND,
        WICED_BT_HFP_HF_CALL_SETUP_IND, h1, h2, h3]
  · by_cases h1 : ctxt.call_active = call_data.active_call_present <;>
      by_cases h2 : ctxt.call_held = call_data.held_call_present <;>
      by_cases h3 : ctxt.call_setup = call_data.setup_state <;>
      simp [handsfree_call_setup_evt, handsfree_send_ciev_cmd,
        WICED_BT_HFP_HF_CALL_IND, WICED_BT_HFP_HF_CALL_HELD_IND,
        WICED_BT_HFP_HF_CALL_SETUP_IND, h1, h2, h3]
  · have h :=
      List.Sublist.append
        (List.Sublist.append
          (opt_singleton_sublist
            (ctxt.call_active ≠ call_data.active_call_present)
            (handsfree_send_ciev_cmd WICED_BT_HFP_HF_CALL_IND
              call_data.active_call_present))
          (opt_singleton_sublist
            (ctxt.call_held ≠ call_data.held_call_present)
            (handsfree_send_ciev_cmd WICED_BT_HFP_HF_CALL_HELD_IND
              call_data.held_call_present)))
        (opt_singleton_sublist
          (ctxt.call_setup ≠ call_data.setup_state)
          (handsfree_send_ciev_cmd WICED_BT_HFP_HF_CALL_SETUP_IND
            call_data.setup_state))
    simpa [handsfree_call_setup_evt] using h
  · simp [handsfree_call_setup_evt, handsfree_call_setup_event_handler]

/-- C10: after processing a call-indicator notification, the stored
`call_active`, `call_held` and `call_setup` fields equal the values the
notification carried, unconditionally. -/
theorem call_indicators_stored_unconditionally
    (call_data : wiced_bt_hfp_hf_call_data_t)
    (ctxt : bluetooth_hfp_context_t) :
    (handsfree_call_setup_evt call_data ctxt).1.call_active =
      call_data.active_call_present ∧
    (handsfree_call_setup_evt call_data ctxt).1.call_held =
      call_data.held_call_present ∧
    (handsfree_call_setup_evt call_data ctxt).1.call_setup =
      call_data.setup_state := by
  simp [handsfree_call_setup_evt, handsfree_call_setup_event_handler]

/-- C5: for a profile-scale level within the profile scale, the volume
mapping is floor division scaled to the device range, incremented by one
exactly when the division remainder is at least the device maximum. -/
theorem hfp_volume_to_am_volume_spec
    (hf_level hf_max device_max : Nat) (hmax : 0 < hf_max)
    (hlev : hf_level ≤ hf_max) :
    handsfree_utils_hfp_volume_to_am_volume hf_level hf_max device_max =
      hf_level * device_max / hf_max +
        (if hf_level * device_max % hf_max ≥ device_max then 1 else 0) := by
  unfold handsfree_utils_hfp_volume_to_am_volume
  by_cases h : hf_level * device_max % hf_max ≥ device_max <;> simp [h]

/-- C5 witness: the mapping at the spec's example, `map_volume(8, 15, 16) = 8`. -/
theorem hfp_volume_to_am_volume_spec_witness :
    handsfree_utils_hfp_volume_to_am_volume 8 15 16 = 8 :=
  (hfp_volume_to_am_volume_spec 8 15 16 (by decide) (by decide)).trans (by decide)

/-- C6: the CLIP and BINP passthrough branches copy at most the outward
buffer capacity of text, but the CNUM (subscriber number) branch copies
the entire text: for every capacity, a subscriber-number text of
capacity + 1 bytes is copied whole, one byte past the buffer. -/
theorem cnum_copy_exceeds_capacity (cap : Nat) (caller_num : List Nat) :
    (clip_text_copy cap caller_num).length ≤ cap ∧
    (binp_text_copy cap caller_num).length ≤ cap ∧
    (cnum_text_copy (List.replicate (cap + 1) 48)).length = cap + 1 := by
  refine ⟨?_, ?_, ?_⟩ <;>
    simp [clip_text_copy, binp_text_copy, cnum_text_copy]

/-- C8: after the AG feature announcement, `use_wbs` is true exactly when
both the AG feature flags and the local feature mask carry the
codec-negotiation bit; and a later codec-selection event overrides this,
leaving `use_wbs` true exactly when the selected codec is the wideband
mSBC codec, regardless of the capability-based result. -/
theorem codec_negotiation_and_selection
    (ag_feature_flags feature_mask selected_codec : Nat)
    (ctxt : bluetooth_hfp_context_t) (esco : wiced_bt_sco_params_t)
    (timer_running : Bool) :
    ((handsfree_ag_feature_support_evt ag_feature_flags feature_mask ctxt
        esco).2.1.use_wbs = true ↔
      (ag_feature_flags &&& WICED_BT_HFP_AG_FEATURE_CODEC_NEGOTIATION ≠ 0 ∧
       feature_mask &&& WICED_BT_HFP_HF_FEATURE_CODEC_NEGOTIATION ≠ 0)) ∧
    ((handsfree_codec_set_evt selected_codec
        (handsfree_ag_feature_support_evt ag_feature_flags feature_mask ctxt
          esco).1
        (handsfree_ag_feature_support_evt ag_feature_flags feature_mask ctxt
          esco).2.1
        timer_running).2.1.use_wbs = true ↔
      selected_codec = WICED_BT_HFP_HF_MSBC_CODEC) := by
  constructor
  · simp [handsfree_ag_feature_support_evt]
  · simp [handsfree_codec_set_evt]

/-- C9: a voice-channel-disconnected notification arriving while the
channel is connected makes the handler emit one Audio-path-closed event,
immediately issue a new create-as-acceptor request, and mark the channel
as not connected. -/
theorem sco_disconnected_reacquires_acceptor
    (assigned_sco_index profile_selected : Nat) (timer_running : Bool)
    (ctxt : bluetooth_hfp_context_t)
    (hopen : ctxt.is_sco_connected = true) :
    (hf_sco_management_callback .scoDisconnected assigned_sco_index
        profile_selected timer_running ctxt).2.2.1 = [HostEvt.audioClose] ∧
    (hf_sco_management_callback .scoDisconnected assigned_sco_index
        profile_selected timer_running ctxt).2.2.2 =
      [StackReq.scoCreateAcceptor] ∧
    (hf_sco_management_callback .scoDisconnected assigned_sco_index
        profile_selected timer_running ctxt).1.is_sco_connected = false := by
  simp [hf_sco_management_callback]

/-- C9 witness: the disconnect handling at a concrete open-channel
context. -/
theorem sco_disconnected_reacquires_acceptor_witness :
    (hf_sco_management_callback .scoDisconnected 9 WICED_BT_HFP_PROFILE false
        ctxt_call_sco).2.2.1 = [HostEvt.audioClose] ∧
    (hf_sco_management_callback .scoDisconnected 9 WICED_BT_HFP_PROFILE false
        ctxt_call_sco).2.2.2 = [StackReq.scoCreateAcceptor] ∧
    (hf_sco_management_callback .scoDisconnected 9 WICED_BT_HFP_PROFILE false
        ctxt_call_sco).1.is_sco_connected = false :=
  sco_disconnected_reacquires_acceptor 9 WICED_BT_HFP_PROFILE false
    ctxt_call_sco (by decide)

end Handsfree
